import Mathlib

/-!
# Node status report of the livepeer command-line wizard

A shallow embedding of `cmd/livepeer_cli/wizard_stats.go`.

The report talks to the outside world in three ways: it issues HTTP GET
requests to the node, it writes lines and tables to standard output, and it
logs diagnostics.  The requests are answered by an explicit environment
(`Env`); the writes and the diagnostics are collected, in program order, in a
trace (`List Event`).  Every function of the source file becomes a Lean
function of the wizard and the environment that returns its result and, when
it has effects, its trace.
-/

namespace LivepeerCli

/-! ## Data model -/

/-- Account address of go-ethereum (`common.Address`, 20 bytes), as its bytes. -/
structure Address where
  bytes : List Nat
deriving DecidableEq, Repr

/-- Zero value of `common.Address`: what indexing a Go map gives for an absent key. -/
def Address.zero : Address := ⟨List.replicate 20 0⟩

/-- Go value of type `map[string]common.Address`; a nil map has no key. -/
abbrev AddrMap := String → Option Address

/-- Go map indexing `m[k]`: the stored value, or the zero value when `k` is absent. -/
def AddrMap.index (m : AddrMap) (k : String) : Address :=
  match m k with
  | some a => a
  | none => Address.zero

/-- Rendering `(*big.Int).String()` of Go's math/big, on a pointer that may be
nil (`none`): a nil receiver gives the text `<nil>`, any other the decimal
representation. -/
def bigString : Option Int → String
  | none => "<nil>"
  | some n => toString n

/-- Go's `strconv.FormatBool`. -/
def FormatBool (b : Bool) : String := if b then "true" else "false"

/-- Anonymous struct that `getBroadcastConfig` decodes into. -/
structure BroadcastConfig where
  MaxPricePerSegment : Option Int
  TranscodingOptions : String

/-- Fields of `lpTypes.Transcoder` that the report reads. -/
structure Transcoder where
  Status : String
  Active : Bool
  DelegatedStake : Option Int
  BlockRewardCut : Option Int
  FeeShare : Option Int
  PricePerSegment : Option Int
  PendingBlockRewardCut : Option Int
  PendingFeeShare : Option Int
  PendingPricePerSegment : Option Int
  LastRewardRound : Option Int

/-- Fields of `lpTypes.Delegator` that the report reads. -/
structure Delegator where
  Status : String
  BondedAmount : Option Int
  Fees : Option Int
  PendingStake : Option Int
  PendingFees : Option Int
  DelegatedAmount : Option Int
  DelegateAddress : Address
  LastClaimTokenPoolsSharesRound : Option Int
  StartRound : Option Int
  WithdrawRound : Option Int

/-- Receiver of the methods; only the fields the report reads. -/
structure wizard where
  host : String
  httpPort : String
  rtmpPort : String

/-- Answer of `http.Get` when it returns no error: the status code, and what
`ioutil.ReadAll(resp.Body)` then yields (a read error, or the body). -/
structure Response where
  StatusCode : Nat
  Body : Except String String

/-- Everything the report calls that lies outside `wizard_stats.go`.

* `httpGet` is the package helper of type `string -> string` (declared in another file
  of the package); it is a parameter: the text it returns for a URL.  It
  contributes no event to the trace: the trace records what the functions of
  `wizard_stats.go` themselves print and log.
* `get` is `http.Get`: a transport error, or a response.  A response with a
  status other than 200 is a response, not an error.
* the four `unmarshal` fields are `json.Unmarshal` at the four target types.
* `hex` is `common.Address.Hex`, `formatUnits` and `formatPerc` are
  `eth.FormatUnits` and `eth.FormatPerc`.
* `currentRound` is the text that the `%v` verb prints for the value
  returned by `w.currentRound()`. -/
structure Env where
  httpGet : String → String
  get : String → Except String Response
  unmarshalAddrMap : String → Except String AddrMap
  unmarshalConfig : String → Except String BroadcastConfig
  unmarshalTranscoder : String → Except String Transcoder
  unmarshalDelegator : String → Except String Delegator
  hex : Address → String
  formatUnits : Option Int → String → String
  formatPerc : Option Int → String
  currentRound : String

/-- Alignment constants of the tablewriter library. -/
inductive Alignment
  | ALIGN_DEFAULT
  | ALIGN_CENTER
  | ALIGN_RIGHT
  | ALIGN_LEFT
deriving DecidableEq, Repr

/-- State of a `tablewriter` table at the moment `Render` is called: the rows
appended so far, in order, and the four settings the report changes. -/
structure Table where
  rows : List (List String)
  alignment : Alignment
  centerSeparator : String
  rowLine : Bool
  columnSeparator : String
deriving DecidableEq, Repr

/-- Observable effects, in program order. -/
inductive Event
  | println (s : String)
  | render (t : Table)
  | logError (msg : String)
deriving DecidableEq, Repr

/-- Table as every section builds it: `NewWriter`, one `Append` for each row
of `data`, then the same four setters. -/
def mkTable (data : List (List String)) : Table :=
  { rows := data
    alignment := Alignment.ALIGN_RIGHT
    centerSeparator := "*"
    rowLine := true
    columnSeparator := "|" }

/-- The `fmt.Sprintf("http://%v:%v<path>", w.host, w.httpPort)` of every getter. -/
def nodeUrl (w : wizard) (path : String) : String :=
  "http://" ++ w.host ++ ":" ++ w.httpPort ++ path

/-! ## Getters -/

def getNodeID (w : wizard) (env : Env) : String :=
  env.httpGet (nodeUrl w "/nodeID")

def getNodeAddr (w : wizard) (env : Env) : String :=
  env.httpGet (nodeUrl w "/nodeAddrs")

def getContractAddresses (w : wizard) (env : Env) : Except String AddrMap :=
  match env.get (nodeUrl w "/contractAddresses") with
  | .error err => .error err
  | .ok resp =>
    match resp.Body with
    | .error err => .error err
    | .ok result =>
      match env.unmarshalAddrMap result with
      | .error err => .error err
      | .ok addrMap => .ok addrMap

def getEthAddr (w : wizard) (env : Env) : String :=
  let addr := env.httpGet (nodeUrl w "/ethAddr")
  if addr = "" then "Unknown" else addr

def getTokenBalance (w : wizard) (env : Env) : String :=
  let b := env.httpGet (nodeUrl w "/tokenBalance")
  if b = "" then "Unknown" else b

def getEthBalance (w : wizard) (env : Env) : String :=
  let e := env.httpGet (nodeUrl w "/ethBalance")
  if e = "" then "Unknown" else e

def getDeposit (w : wizard) (env : Env) : String :=
  let e := env.httpGet (nodeUrl w "/broadcasterDeposit")
  if e = "" then "Unknown" else e

/-- Returns the pair of the source and the diagnostics it logged. -/
def getBroadcastConfig (w : wizard) (env : Env) : (Option Int × String) × List Event :=
  match env.get (nodeUrl w "/getBroadcastConfig") with
  | .error err => ((none, ""), [Event.logError ("Error getting broadcast config: " ++ err)])
  | .ok resp =>
    match resp.Body with
    | .error err => ((none, ""), [Event.logError ("Error reading response: " ++ err)])
    | .ok result =>
      match env.unmarshalConfig result with
      | .error err =>
        ((none, ""), [Event.logError ("Error unmarshalling broadcast config: " ++ err)])
      | .ok config => ((config.MaxPricePerSegment, config.TranscodingOptions), [])

def getTranscoderInfo (w : wizard) (env : Env) : Except String Transcoder :=
  match env.get (nodeUrl w "/transcoderInfo") with
  | .error err => .error err
  | .ok resp =>
    match resp.Body with
    | .error err => .error err
    | .ok result =>
      match env.unmarshalTranscoder result with
      | .error err => .error err
      | .ok tInfo => .ok tInfo

def getDelegatorInfo (w : wizard) (env : Env) : Except String Delegator :=
  match env.get (nodeUrl w "/delegatorInfo") with
  | .error err => .error err
  | .ok resp =>
    match resp.Body with
    | .error err => .error err
    | .ok result =>
      match env.unmarshalDelegator result with
      | .error err => .error err
      | .ok dInfo => .ok dInfo

/-! ## Sections -/

/-- The `data` literal of `broadcastStats`. -/
def broadcastData (w : wizard) (env : Env) (price : Option Int) (transcodingOptions : String) :
    List (List String) :=
  [ ["Deposit", getDeposit w env],
    ["Broadcast Price Per Segment", bigString price],
    ["Broadcast Transcoding Options", transcodingOptions] ]

def broadcastStats (w : wizard) (env : Env) : List Event :=
  let cfg := getBroadcastConfig w env
  [ Event.println "+-----------------+",
    Event.println "|BROADCASTER STATS|",
    Event.println "+-----------------+" ]
  ++ cfg.2
  ++ [Event.render (mkTable (broadcastData w env cfg.1.1 cfg.1.2))]

/-- The `data` literal of `transcoderStats`. -/
def transcoderData (env : Env) (t : Transcoder) : List (List String) :=
  [ ["Status", t.Status],
    ["Active", FormatBool t.Active],
    ["Delegated Stake", env.formatUnits t.DelegatedStake "LPT"],
    ["Reward Cut (%)", env.formatPerc t.BlockRewardCut],
    ["Fee Share (%)", env.formatPerc t.FeeShare],
    ["Price Per Segment", env.formatUnits t.PricePerSegment "ETH"],
    ["Pending Reward Cut (%)", env.formatPerc t.PendingBlockRewardCut],
    ["Pending Fee Share (%)", env.formatPerc t.PendingFeeShare],
    ["Pending Price Per Segment", env.formatUnits t.PendingPricePerSegment "ETH"],
    ["Last Reward Round", bigString t.LastRewardRound] ]

def transcoderStats (w : wizard) (env : Env) : List Event :=
  match getTranscoderInfo w env with
  | .error err => [Event.logError ("Error getting transcoder info: " ++ err)]
  | .ok t =>
    [ Event.println "+----------------+",
      Event.println "|TRANSCODER STATS|",
      Event.println "+----------------+",
      Event.render (mkTable (transcoderData env t)) ]

/-- The `data` literal of `delegatorStats`. -/
def delegatorData (env : Env) (d : Delegator) : List (List String) :=
  [ ["Status", d.Status],
    ["Stake", bigString d.BondedAmount],
    ["Collected Fees", bigString d.Fees],
    ["Pending Stake", bigString d.PendingStake],
    ["Pending Fees", bigString d.PendingFees],
    ["Delegated Stake", bigString d.DelegatedAmount],
    ["Delegate Address", env.hex d.DelegateAddress],
    ["Last Claim Round", bigString d.LastClaimTokenPoolsSharesRound],
    ["Start Round", bigString d.StartRound],
    ["Withdraw Round", bigString d.WithdrawRound] ]

def delegatorStats (w : wizard) (env : Env) : List Event :=
  match getDelegatorInfo w env with
  | .error err => [Event.logError ("Error getting delegator info: " ++ err)]
  | .ok d =>
    [ Event.println "+---------------+",
      Event.println "|DELEGATOR STATS|",
      Event.println "+---------------+",
      Event.render (mkTable (delegatorData env d)) ]

/-- The `data` literal of `stats`. -/
def nodeData (w : wizard) (env : Env) (addrMap : AddrMap) : List (List String) :=
  [ ["Node ID", getNodeID w env],
    ["Node Addr", getNodeAddr w env],
    ["RTMP Port", w.rtmpPort],
    ["HTTP Port", w.httpPort],
    ["Controller Address", env.hex (addrMap.index "Controller")],
    ["LivepeerToken Address", env.hex (addrMap.index "LivepeerToken")],
    ["LivepeerTokenFaucet Address", env.hex (addrMap.index "LivepeerTokenFaucet")],
    ["ETH Account", getEthAddr w env],
    ["LPT Balance", getTokenBalance w env],
    ["ETH Balance", getEthBalance w env] ]

/-- The final `fmt.Printf("CURRENT ROUND: %v\n", currentRound)`: one line. -/
def roundLine (env : Env) : Event :=
  Event.println ("CURRENT ROUND: " ++ env.currentRound)

def stats (w : wizard) (env : Env) (showTranscoder : Bool) : List Event :=
  match getContractAddresses w env with
  | .error err => [Event.logError ("Error getting contract addresses: " ++ err)]
  | .ok addrMap =>
    [ Event.println "+-----------+",
      Event.println "|NODE STATS|",
      Event.println "+-----------+",
      Event.render (mkTable (nodeData w env addrMap)) ]
    ++ (if showTranscoder then
          transcoderStats w env ++ delegatorStats w env
        else
          broadcastStats w env ++ delegatorStats w env)
    ++ [roundLine env]

/-! ## Reading a trace -/

/-- What reached standard output: the trace without the diagnostics. -/
def printed (tr : List Event) : List Event :=
  tr.filter (fun e => match e with
    | Event.logError _ => false
    | _ => true)

/-- The diagnostics logged, in order. -/
def errors (tr : List Event) : List String :=
  tr.filterMap (fun e => match e with
    | Event.logError msg => some msg
    | _ => none)

/-- The tables rendered, in order. -/
def tables (tr : List Event) : List Table :=
  tr.filterMap (fun e => match e with
    | Event.render t => some t
    | _ => none)

/-! ## Concrete environments

A wizard pointed at `localhost:8935` and a few nodes for it to talk to.  The
decoders below stand for `json.Unmarshal` on the bodies these nodes serve: the
one well-formed body for each target type, and the empty body, on which
`json.Unmarshal` fails. -/

/-- Lower-case hex digit of a number below 16. -/
def hexDigit (n : Nat) : Char :=
  if n < 10 then Char.ofNat (48 + n) else Char.ofNat (87 + n)

/-- The `0x` text of an address in lower-case hex digits.  For an address
whose hex digits are all decimal, as the ones below, this is what
`common.Address.Hex` renders, with or without checksum casing. -/
def hexLower (a : Address) : String :=
  "0x" ++ String.mk (a.bytes.flatMap (fun b => [hexDigit (b / 16), hexDigit (b % 16)]))

def sampleWizard : wizard :=
  { host := "localhost", httpPort := "8935", rtmpPort := "1935" }

def addressesBody : String :=
  "\x7b\"Controller\":\"0x1111111111111111111111111111111111111111\"," ++
  "\"LivepeerToken\":\"0x2222222222222222222222222222222222222222\"," ++
  "\"LivepeerTokenFaucet\":\"0x3333333333333333333333333333333333333333\"\x7d"

def sampleAddrMap : AddrMap := fun k =>
  if k = "Controller" then some ⟨List.replicate 20 0x11⟩
  else if k = "LivepeerToken" then some ⟨List.replicate 20 0x22⟩
  else if k = "LivepeerTokenFaucet" then some ⟨List.replicate 20 0x33⟩
  else none

def configBody : String :=
  "\x7b\"MaxPricePerSegment\":5,\"TranscodingOptions\":\"P240p30fps4x3\"\x7d"

def sampleConfig : BroadcastConfig :=
  { MaxPricePerSegment := some 5, TranscodingOptions := "P240p30fps4x3" }

def transcoderBody : String :=
  "\x7b\"Status\":\"Registered\",\"Active\":true,\"DelegatedStake\":1000," ++
  "\"BlockRewardCut\":10,\"FeeShare\":5,\"PricePerSegment\":1," ++
  "\"PendingBlockRewardCut\":10,\"PendingFeeShare\":5,\"PendingPricePerSegment\":1," ++
  "\"LastRewardRound\":6\x7d"

def sampleTranscoder : Transcoder :=
  { Status := "Registered", Active := true, DelegatedStake := some 1000,
    BlockRewardCut := some 10, FeeShare := some 5, PricePerSegment := some 1,
    PendingBlockRewardCut := some 10, PendingFeeShare := some 5,
    PendingPricePerSegment := some 1, LastRewardRound := some 6 }

def delegatorBody : String :=
  "\x7b\"Status\":\"Bonded\",\"BondedAmount\":1000,\"Fees\":0,\"PendingStake\":1000," ++
  "\"PendingFees\":0,\"DelegatedAmount\":1000," ++
  "\"DelegateAddress\":\"0x4444444444444444444444444444444444444444\"," ++
  "\"LastClaimTokenPoolsSharesRound\":6,\"StartRound\":3,\"WithdrawRound\":0\x7d"

def sampleDelegator : Delegator :=
  { Status := "Bonded", BondedAmount := some 1000, Fees := some 0,
    PendingStake := some 1000, PendingFees := some 0, DelegatedAmount := some 1000,
    DelegateAddress := ⟨List.replicate 20 0x44⟩,
    LastClaimTokenPoolsSharesRound := some 6, StartRound := some 3,
    WithdrawRound := some 0 }

/-- Environment over a given `httpGet` and `http.Get`; the formatters of the
`eth` package are stand-ins that print the number (and the unit). -/
def sampleEnv (httpGet : String → String) (get : String → Except String Response) : Env :=
  { httpGet := httpGet
    get := get
    unmarshalAddrMap := fun b =>
      if b = addressesBody then .ok sampleAddrMap else .error "unexpected end of JSON input"
    unmarshalConfig := fun b =>
      if b = configBody then .ok sampleConfig else .error "unexpected end of JSON input"
    unmarshalTranscoder := fun b =>
      if b = transcoderBody then .ok sampleTranscoder else .error "unexpected end of JSON input"
    unmarshalDelegator := fun b =>
      if b = delegatorBody then .ok sampleDelegator else .error "unexpected end of JSON input"
    hex := hexLower
    formatUnits := fun v u => bigString v ++ " " ++ u
    formatPerc := fun v => bigString v
    currentRound := "7" }

/-- Raw-text answers of the end-to-end scenario: a node ID, a node address,
an empty `/ethAddr`, and some balances. -/
def scenarioHttpGet (u : String) : String :=
  if u = "http://localhost:8935/nodeID" then "abc123"
  else if u = "http://localhost:8935/nodeAddrs" then "/ip4/127.0.0.1/tcp/15000"
  else if u = "http://localhost:8935/ethAddr" then ""
  else if u = "http://localhost:8935/tokenBalance" then "100"
  else if u = "http://localhost:8935/ethBalance" then "2"
  else if u = "http://localhost:8935/broadcasterDeposit" then "50"
  else ""

/-- A node that answers all four JSON endpoints with status 200. -/
def healthyGet (u : String) : Except String Response :=
  if u = "http://localhost:8935/contractAddresses" then .ok ⟨200, .ok addressesBody⟩
  else if u = "http://localhost:8935/getBroadcastConfig" then .ok ⟨200, .ok configBody⟩
  else if u = "http://localhost:8935/transcoderInfo" then .ok ⟨200, .ok transcoderBody⟩
  else if u = "http://localhost:8935/delegatorInfo" then .ok ⟨200, .ok delegatorBody⟩
  else .error "connection refused"

/-- The node of the end-to-end scenario. -/
def scenarioEnv : Env := sampleEnv scenarioHttpGet healthyGet

/-- No node is listening: every request fails, `httpGet` returns nothing. -/
def downEnv : Env := sampleEnv (fun _ => "") (fun _ => .error "connection refused")

/-- A node whose `/contractAddresses` cannot be reached, all else as in the scenario. -/
def noAddressesEnv : Env :=
  sampleEnv scenarioHttpGet (fun u =>
    if u = "http://localhost:8935/contractAddresses" then .error "connection refused"
    else healthyGet u)

/-- A node that answers `/getBroadcastConfig` with status 500 and a
well-formed body, all else as in the scenario. -/
def serverErrorEnv : Env :=
  sampleEnv scenarioHttpGet (fun u =>
    if u = "http://localhost:8935/getBroadcastConfig" then .ok ⟨500, .ok configBody⟩
    else healthyGet u)

/-- A node that answers `/getBroadcastConfig` with status 500 and an empty
body, all else as in the scenario. -/
def emptyServerErrorEnv : Env :=
  sampleEnv scenarioHttpGet (fun u =>
    if u = "http://localhost:8935/getBroadcastConfig" then .ok ⟨500, .ok ""⟩
    else healthyGet u)

/-- A node whose raw-text endpoints all answer with an empty body, the JSON
endpoints as in the scenario. -/
def emptyTextEnv : Env := sampleEnv (fun _ => "") healthyGet

/-- The environment `env` with the answer to the raw GET of `url` replaced by `s`. -/
def Env.withText (env : Env) (url s : String) : Env :=
  { env with httpGet := fun u => if u = url then s else env.httpGet u }

/-- The environment `env` with the answer of `http.Get` for `url` replaced by `r`. -/
def Env.withAnswer (env : Env) (url : String) (r : Except String Response) : Env :=
  { env with get := fun u => if u = url then r else env.get u }

/-- The environment `env` with every response carrying the status code `code`. -/
def Env.withStatus (env : Env) (code : Nat) : Env :=
  { env with get := fun u =>
      match env.get u with
      | .error err => .error err
      | .ok resp => .ok { resp with StatusCode := code } }

/-! ## Auxiliary facts -/

set_option maxRecDepth 100000

/-- Two texts that already differ within their first `n` characters stay
different whatever is appended to them. -/
theorem append_ne_append (n : Nat) (p q s t : String)
    (hp : n ≤ p.data.length) (hq : n ≤ q.data.length)
    (hne : p.data.take n ≠ q.data.take n) : p ++ s ≠ q ++ t := by
  intro h
  apply hne
  have hd : p.data ++ s.data = q.data ++ t.data := by
    have := congrArg String.data h
    simpa [String.data_append] using this
  have h1 : (p.data ++ s.data).take n = p.data.take n := by
    rw [List.take_append_of_le_length hp]
  have h2 : (q.data ++ t.data).take n = q.data.take n := by
    rw [List.take_append_of_le_length hq]
  rw [← h1, ← h2, hd]

/-- Variant of `append_ne_append` with nothing appended on the right. -/
theorem append_ne_lit (n : Nat) (p q s : String)
    (hp : n ≤ p.data.length) (hq : n ≤ q.data.length)
    (hne : p.data.take n ≠ q.data.take n) : p ++ s ≠ q := by
  have := append_ne_append n p q s "" hp hq hne
  simpa using this

/-- The two outcomes of `transcoderStats`. -/
theorem transcoderStats_cases (w : wizard) (env : Env) :
    (∃ err, getTranscoderInfo w env = .error err ∧
      transcoderStats w env = [Event.logError ("Error getting transcoder info: " ++ err)])
    ∨ (∃ t, getTranscoderInfo w env = .ok t ∧
      transcoderStats w env =
        [ Event.println "+----------------+",
          Event.println "|TRANSCODER STATS|",
          Event.println "+----------------+",
          Event.render (mkTable (transcoderData env t)) ]) := by
  unfold transcoderStats
  cases h : getTranscoderInfo w env with
  | error err => exact Or.inl ⟨err, rfl, rfl⟩
  | ok t => exact Or.inr ⟨t, rfl, rfl⟩

/-- The two outcomes of `delegatorStats`. -/
theorem delegatorStats_cases (w : wizard) (env : Env) :
    (∃ err, getDelegatorInfo w env = .error err ∧
      delegatorStats w env = [Event.logError ("Error getting delegator info: " ++ err)])
    ∨ (∃ d, getDelegatorInfo w env = .ok d ∧
      delegatorStats w env =
        [ Event.println "+---------------+",
          Event.println "|DELEGATOR STATS|",
          Event.println "+---------------+",
          Event.render (mkTable (delegatorData env d)) ]) := by
  unfold delegatorStats
  cases h : getDelegatorInfo w env with
  | error err => exact Or.inl ⟨err, rfl, rfl⟩
  | ok d => exact Or.inr ⟨d, rfl, rfl⟩

/-- The outcomes of `getBroadcastConfig`: either nothing is logged, or nil and
the empty text are returned and one of three diagnostics is logged. -/
theorem getBroadcastConfig_cases (w : wizard) (env : Env) :
    (getBroadcastConfig w env).2 = []
    ∨ (∃ err, getBroadcastConfig w env =
        ((none, ""), [Event.logError ("Error getting broadcast config: " ++ err)]))
    ∨ (∃ err, getBroadcastConfig w env =
        ((none, ""), [Event.logError ("Error reading response: " ++ err)]))
    ∨ (∃ err, getBroadcastConfig w env =
        ((none, ""), [Event.logError ("Error unmarshalling broadcast config: " ++ err)])) := by
  unfold getBroadcastConfig
  split
  · exact Or.inr (Or.inl ⟨_, rfl⟩)
  · split
    · exact Or.inr (Or.inr (Or.inl ⟨_, rfl⟩))
    · split
      · exact Or.inr (Or.inr (Or.inr ⟨_, rfl⟩))
      · exact Or.inl rfl

/-- Trace of `broadcastStats`, with the local binding unfolded. -/
theorem broadcastStats_eq (w : wizard) (env : Env) :
    broadcastStats w env =
      [ Event.println "+-----------------+",
        Event.println "|BROADCASTER STATS|",
        Event.println "+-----------------+" ]
      ++ (getBroadcastConfig w env).2
      ++ [Event.render (mkTable (broadcastData w env (getBroadcastConfig w env).1.1
            (getBroadcastConfig w env).1.2))] := rfl

/-- Shape of the trace of `stats` once the contract addresses are fetched. -/
theorem stats_of_addresses (w : wizard) (env : Env) (addrMap : AddrMap) (b : Bool)
    (h : getContractAddresses w env = .ok addrMap) :
    stats w env b =
      [ Event.println "+-----------+",
        Event.println "|NODE STATS|",
        Event.println "+-----------+",
        Event.render (mkTable (nodeData w env addrMap)) ]
      ++ (if b then transcoderStats w env else broadcastStats w env)
      ++ delegatorStats w env
      ++ [Event.println ("CURRENT ROUND: " ++ env.currentRound)] := by
  unfold stats
  rw [h]
  cases b <;> simp [roundLine]

/-- Trace of `stats` when the contract addresses cannot be fetched. -/
theorem stats_of_no_addresses (w : wizard) (env : Env) (err : String) (b : Bool)
    (h : getContractAddresses w env = .error err) :
    stats w env b = [Event.logError ("Error getting contract addresses: " ++ err)] := by
  unfold stats
  rw [h]

/-- C1: whenever the contract addresses are fetched, `stats` emits the NODE
STATS title and table, then the transcoder section (transcoder mode) or the
broadcaster section (broadcaster mode), then the delegator section, then the
CURRENT ROUND line, in that order; no event of the broadcaster section occurs
in transcoder mode and no event of the transcoder section in broadcaster mode. -/
theorem stats_sections_in_order (w : wizard) (env : Env) (addrMap : AddrMap)
    (h : getContractAddresses w env = .ok addrMap) :
    stats w env true =
        [ Event.println "+-----------+",
          Event.println "|NODE STATS|",
          Event.println "+-----------+",
          Event.render (mkTable (nodeData w env addrMap)) ]
        ++ transcoderStats w env ++ delegatorStats w env
        ++ [Event.println ("CURRENT ROUND: " ++ env.currentRound)]
    ∧ stats w env false =
        [ Event.println "+-----------+",
          Event.println "|NODE STATS|",
          Event.println "+-----------+",
          Event.render (mkTable (nodeData w env addrMap)) ]
        ++ broadcastStats w env ++ delegatorStats w env
        ++ [Event.println ("CURRENT ROUND: " ++ env.currentRound)]
    ∧ (∀ e ∈ broadcastStats w env, e ∉ stats w env true)
    ∧ (∀ e ∈ transcoderStats w env, e ∉ stats w env false) := by
  have hr1 : ∀ r : String, ¬ ("+-----------------+" = "CURRENT ROUND: " ++ r) :=
    fun r e => append_ne_lit 1 _ _ r (by decide) (by decide) (by decide) e.symm
  have hr2 : ∀ r : String, ¬ ("|BROADCASTER STATS|" = "CURRENT ROUND: " ++ r) :=
    fun r e => append_ne_lit 1 _ _ r (by decide) (by decide) (by decide) e.symm
  have hr3 : ∀ r : String, ¬ ("+----------------+" = "CURRENT ROUND: " ++ r) :=
    fun r e => append_ne_lit 1 _ _ r (by decide) (by decide) (by decide) e.symm
  have hr4 : ∀ r : String, ¬ ("|TRANSCODER STATS|" = "CURRENT ROUND: " ++ r) :=
    fun r e => append_ne_lit 1 _ _ r (by decide) (by decide) (by decide) e.symm
  have hl1 : ∀ a b : String, ¬ ("Error getting broadcast config: " ++ a
      = "Error getting transcoder info: " ++ b) :=
    fun a b => append_ne_append 15 _ _ a b (by decide) (by decide) (by decide)
  have hl2 : ∀ a b : String, ¬ ("Error getting broadcast config: " ++ a
      = "Error getting delegator info: " ++ b) :=
    fun a b => append_ne_append 15 _ _ a b (by decide) (by decide) (by decide)
  have hl3 : ∀ a b : String, ¬ ("Error reading response: " ++ a
      = "Error getting transcoder info: " ++ b) :=
    fun a b => append_ne_append 7 _ _ a b (by decide) (by decide) (by decide)
  have hl4 : ∀ a b : String, ¬ ("Error reading response: " ++ a
      = "Error getting delegator info: " ++ b) :=
    fun a b => append_ne_append 7 _ _ a b (by decide) (by decide) (by decide)
  have hl5 : ∀ a b : String, ¬ ("Error unmarshalling broadcast config: " ++ a
      = "Error getting transcoder info: " ++ b) :=
    fun a b => append_ne_append 7 _ _ a b (by decide) (by decide) (by decide)
  have hl6 : ∀ a b : String, ¬ ("Error unmarshalling broadcast config: " ++ a
      = "Error getting delegator info: " ++ b) :=
    fun a b => append_ne_append 7 _ _ a b (by decide) (by decide) (by decide)
  have hl7 : ∀ a b : String, ¬ ("Error getting transcoder info: " ++ a
      = "Error getting delegator info: " ++ b) :=
    fun a b => append_ne_append 15 _ _ a b (by decide) (by decide) (by decide)
  have hl8 : ∀ a b : String, ¬ ("Error getting transcoder info: " ++ a
      = "Error getting broadcast config: " ++ b) :=
    fun a b e => hl1 b a e.symm
  have hl9 : ∀ a b : String, ¬ ("Error getting transcoder info: " ++ a
      = "Error reading response: " ++ b) :=
    fun a b e => hl3 b a e.symm
  have hl10 : ∀ a b : String, ¬ ("Error getting transcoder info: " ++ a
      = "Error unmarshalling broadcast config: " ++ b) :=
    fun a b e => hl5 b a e.symm
  have hT := stats_of_addresses w env addrMap true h
  have hF := stats_of_addresses w env addrMap false h
  simp only [if_true, Bool.false_eq_true, if_false] at hT hF
  refine ⟨hT, hF, ?_, ?_⟩
  · rw [hT, broadcastStats_eq]
    rcases transcoderStats_cases w env with ⟨e1, -, ht⟩ | ⟨t, -, ht⟩ <;>
    rcases delegatorStats_cases w env with ⟨e2, -, hd⟩ | ⟨d, -, hd⟩ <;>
    rcases getBroadcastConfig_cases w env with hc | ⟨e3, hc⟩ | ⟨e3, hc⟩ | ⟨e3, hc⟩ <;>
    rw [ht, hd, hc] <;>
    simp [mkTable, broadcastData, transcoderData, delegatorData, nodeData,
      hr1, hr2, hl1, hl2, hl3, hl4, hl5, hl6]
  · rw [hF, broadcastStats_eq]
    rcases transcoderStats_cases w env with ⟨e1, -, ht⟩ | ⟨t, -, ht⟩ <;>
    rcases delegatorStats_cases w env with ⟨e2, -, hd⟩ | ⟨d, -, hd⟩ <;>
    rcases getBroadcastConfig_cases w env with hc | ⟨e3, hc⟩ | ⟨e3, hc⟩ | ⟨e3, hc⟩ <;>
    rw [ht, hd, hc] <;>
    simp [mkTable, broadcastData, transcoderData, delegatorData, nodeData,
      hr3, hr4, hl7, hl8, hl9, hl10]

/-- Witness for C1: on the scenario node the four parts appear in the stated
order in both modes. -/
theorem stats_sections_in_order_witness :
    getContractAddresses sampleWizard scenarioEnv = .ok sampleAddrMap
    ∧ printed (stats sampleWizard scenarioEnv true) =
        [ Event.println "+-----------+",
          Event.println "|NODE STATS|",
          Event.println "+-----------+",
          Event.render (mkTable (nodeData sampleWizard scenarioEnv sampleAddrMap)),
          Event.println "+----------------+",
          Event.println "|TRANSCODER STATS|",
          Event.println "+----------------+",
          Event.render (mkTable (transcoderData scenarioEnv sampleTranscoder)),
          Event.println "+---------------+",
          Event.println "|DELEGATOR STATS|",
          Event.println "+---------------+",
          Event.render (mkTable (delegatorData scenarioEnv sampleDelegator)),
          Event.println "CURRENT ROUND: 7" ]
    ∧ printed (stats sampleWizard scenarioEnv false) =
        [ Event.println "+-----------+",
          Event.println "|NODE STATS|",
          Event.println "+-----------+",
          Event.render (mkTable (nodeData sampleWizard scenarioEnv sampleAddrMap)),
          Event.println "+-----------------+",
          Event.println "|BROADCASTER STATS|",
          Event.println "+-----------------+",
          Event.render (mkTable (broadcastData sampleWizard scenarioEnv (some 5) "P240p30fps4x3")),
          Event.println "+---------------+",
          Event.println "|DELEGATOR STATS|",
          Event.println "+---------------+",
          Event.render (mkTable (delegatorData scenarioEnv sampleDelegator)),
          Event.println "CURRENT ROUND: 7" ] := by
  have h := stats_sections_in_order sampleWizard scenarioEnv sampleAddrMap rfl
  refine ⟨rfl, ?_, ?_⟩
  · rw [h.1]; decide
  · rw [h.2.1]; decide

/-- Counterexample for C2: on a node whose `/contractAddresses` cannot be
reached while `/transcoderInfo` and `/delegatorInfo` answer well, `stats`
logs the one error and stops: in either mode nothing is printed, no table is
rendered and the CURRENT ROUND line is missing. -/
theorem stats_stops_without_addresses :
    getTranscoderInfo sampleWizard noAddressesEnv = .ok sampleTranscoder
    ∧ getDelegatorInfo sampleWizard noAddressesEnv = .ok sampleDelegator
    ∧ stats sampleWizard noAddressesEnv true =
        [Event.logError "Error getting contract addresses: connection refused"]
    ∧ stats sampleWizard noAddressesEnv false =
        [Event.logError "Error getting contract addresses: connection refused"]
    ∧ Event.render (mkTable (delegatorData noAddressesEnv sampleDelegator))
        ∉ stats sampleWizard noAddressesEnv true
    ∧ Event.println ("CURRENT ROUND: " ++ noAddressesEnv.currentRound)
        ∉ stats sampleWizard noAddressesEnv false := by
  refine ⟨rfl, rfl, by decide, by decide, by decide, by decide⟩

/-- C2 (amended): once the contract addresses are fetched, no failure of a
later section is fatal: in either mode the role-specific section, the
delegator section and the CURRENT ROUND line are all attempted, each leaving
its table when its own fetch succeeds and its own diagnostic when it fails
(the broadcaster section its table always, and the diagnostic of its config
fetch when there is one);
when the contract addresses cannot be fetched, `stats` logs that error and
returns at once. -/
theorem stats_attempts_remaining_sections (w : wizard) (env : Env) (b : Bool) :
    (∀ addrMap, getContractAddresses w env = .ok addrMap →
      (∀ t, b = true → getTranscoderInfo w env = .ok t →
          Event.render (mkTable (transcoderData env t)) ∈ stats w env b)
      ∧ (∀ err, b = true → getTranscoderInfo w env = .error err →
          Event.logError ("Error getting transcoder info: " ++ err) ∈ stats w env b)
      ∧ (b = false → ∃ price options,
          Event.render (mkTable (broadcastData w env price options)) ∈ stats w env b)
      ∧ (∀ d, getDelegatorInfo w env = .ok d →
          Event.render (mkTable (delegatorData env d)) ∈ stats w env b)
      ∧ (∀ err, getDelegatorInfo w env = .error err →
          Event.logError ("Error getting delegator info: " ++ err) ∈ stats w env b)
      ∧ Event.println ("CURRENT ROUND: " ++ env.currentRound) ∈ stats w env b
      ∧ (b = false → ∀ e ∈ (getBroadcastConfig w env).2, e ∈ stats w env b))
    ∧ (∀ err, getContractAddresses w env = .error err →
      stats w env b = [Event.logError ("Error getting contract addresses: " ++ err)]) := by
  refine ⟨?_, fun err h => stats_of_no_addresses w env err b h⟩
  intro addrMap h
  rw [stats_of_addresses w env addrMap b h]
  refine ⟨?_, ?_, ?_, ?_, ?_, ?_, ?_⟩
  · intro t hb ht
    subst hb
    simp [transcoderStats, ht]
  · intro err hb ht
    subst hb
    simp [transcoderStats, ht]
  · intro hb
    subst hb
    exact ⟨(getBroadcastConfig w env).1.1, (getBroadcastConfig w env).1.2, by
      simp [broadcastStats_eq]⟩
  · intro d hd
    simp [delegatorStats, hd]
  · intro err hd
    simp [delegatorStats, hd]
  · simp
  · intro hb e he
    subst hb
    simp [broadcastStats_eq, he]

/-- Witness for C2 (amended): a node whose `/transcoderInfo` and
`/getBroadcastConfig` both fail still gets its delegator table and its
CURRENT ROUND line, and a node without contract addresses gets the one error. -/
theorem stats_attempts_remaining_sections_witness :
    (Event.render (mkTable (delegatorData emptyServerErrorEnv sampleDelegator))
        ∈ stats sampleWizard emptyServerErrorEnv false
      ∧ Event.println "CURRENT ROUND: 7" ∈ stats sampleWizard emptyServerErrorEnv false)
    ∧ stats sampleWizard noAddressesEnv true =
        [Event.logError ("Error getting contract addresses: " ++ "connection refused")] :=
  ⟨⟨((stats_attempts_remaining_sections sampleWizard emptyServerErrorEnv false).1
        sampleAddrMap rfl).2.2.2.1 sampleDelegator rfl,
    ((stats_attempts_remaining_sections sampleWizard emptyServerErrorEnv false).1
        sampleAddrMap rfl).2.2.2.2.2.1⟩,
   (stats_attempts_remaining_sections sampleWizard noAddressesEnv true).2
      "connection refused" rfl⟩

/-- C3: when `getContractAddresses` fails (transport error, unreadable body
or undecodable body) `stats` prints nothing, renders no table and logs
exactly one error; when it succeeds, the NODE STATS title and the table of
ten rows open the trace, whatever the raw-text fetches return. -/
theorem node_summary_depends_on_addresses_only (w : wizard) (env : Env) (b : Bool) :
    ((∃ err, getContractAddresses w env = .error err) ↔
        ((∃ err, env.get (nodeUrl w "/contractAddresses") = .error err)
        ∨ (∃ resp err, env.get (nodeUrl w "/contractAddresses") = .ok resp
            ∧ resp.Body = .error err)
        ∨ (∃ resp result err, env.get (nodeUrl w "/contractAddresses") = .ok resp
            ∧ resp.Body = .ok result ∧ env.unmarshalAddrMap result = .error err)))
    ∧ (∀ err, getContractAddresses w env = .error err →
        printed (stats w env b) = []
        ∧ tables (stats w env b) = []
        ∧ errors (stats w env b) = ["Error getting contract addresses: " ++ err])
    ∧ (∀ addrMap, getContractAddresses w env = .ok addrMap →
        ∀ httpGet : String → String,
          (stats w { env with httpGet := httpGet } b).take 4 =
            [ Event.println "+-----------+",
              Event.println "|NODE STATS|",
              Event.println "+-----------+",
              Event.render (mkTable (nodeData w { env with httpGet := httpGet } addrMap)) ]
          ∧ (nodeData w { env with httpGet := httpGet } addrMap).length = 10
          ∧ (tables (stats w { env with httpGet := httpGet } b)).head?.map
              (fun t => t.rows.length) = some 10) := by
  refine ⟨?_, ?_, ?_⟩
  · unfold getContractAddresses
    constructor
    · rintro ⟨err, h⟩
      split at h
      · next e he => exact Or.inl ⟨e, he⟩
      · next resp he =>
        split at h
        · next e hb => exact Or.inr (Or.inl ⟨resp, e, he, hb⟩)
        · next result hb =>
          split at h
          · next e hu => exact Or.inr (Or.inr ⟨resp, result, e, he, hb, hu⟩)
          · cases h
    · rintro (⟨err, he⟩ | ⟨resp, err, he, hb⟩ | ⟨resp, result, err, he, hb, hu⟩)
      · exact ⟨err, by rw [he]⟩
      · exact ⟨err, by rw [he]; simp only [hb]⟩
      · exact ⟨err, by rw [he]; simp only [hb, hu]⟩
  · intro err h
    rw [stats_of_no_addresses w env err b h]
    simp [printed, tables, errors]
  · intro addrMap h httpGet
    have h2 : getContractAddresses w { env with httpGet := httpGet } = .ok addrMap := h
    rw [stats_of_addresses w _ addrMap b h2]
    simp [nodeData, tables, mkTable]

/-- Witness for C3: with no node listening `stats` logs one error and prints
nothing; on the scenario node the title and table are rendered even when
every raw-text fetch comes back empty. -/
theorem node_summary_depends_on_addresses_only_witness :
    (printed (stats sampleWizard downEnv true) = []
      ∧ tables (stats sampleWizard downEnv true) = []
      ∧ errors (stats sampleWizard downEnv true) =
          ["Error getting contract addresses: " ++ "connection refused"])
    ∧ ((stats sampleWizard { scenarioEnv with httpGet := fun _ => "" } false).take 4 =
          [ Event.println "+-----------+",
            Event.println "|NODE STATS|",
            Event.println "+-----------+",
            Event.render (mkTable
              (nodeData sampleWizard { scenarioEnv with httpGet := fun _ => "" } sampleAddrMap)) ]
      ∧ (nodeData sampleWizard { scenarioEnv with httpGet := fun _ => "" } sampleAddrMap).length
          = 10
      ∧ (tables (stats sampleWizard { scenarioEnv with httpGet := fun _ => "" } false)).head?.map
          (fun t => t.rows.length) = some 10) :=
  ⟨(node_summary_depends_on_addresses_only sampleWizard downEnv true).2.1
      "connection refused" rfl,
   (node_summary_depends_on_addresses_only sampleWizard scenarioEnv false).2.2
      sampleAddrMap rfl (fun _ => "")⟩

/-- A common text in front can be cancelled. -/
theorem append_left_cancel (p s t : String) (h : p ++ s = p ++ t) : s = t := by
  have := congrArg String.data h
  simp [String.data_append] at this
  exact String.ext this

/-- Different paths give different URLs on the same node. -/
theorem nodeUrl_ne (w : wizard) (p q : String) (h : p ≠ q) : nodeUrl w p ≠ nodeUrl w q :=
  fun e => h (append_left_cancel _ p q e)

/-- C4: for every contract-address map that is fetched, the table rendered as
the fourth event of the trace, right after the three NODE STATS title lines,
is the first table of the report and its rows are exactly the ten rows
Node ID, Node Addr, RTMP Port, HTTP Port, Controller Address, LivepeerToken
Address, LivepeerTokenFaucet Address, ETH Account, LPT Balance, ETH Balance,
in this order; the three address rows are the hex renderings of the map at the
keys Controller, LivepeerToken, LivepeerTokenFaucet; and no other key is
displayed: a node that serves any other map agreeing on these three keys, with
the same raw texts, gets the same rows. -/
theorem node_table_rows (w : wizard) (env : Env) (addrMap : AddrMap) (b : Bool)
    (h : getContractAddresses w env = .ok addrMap) :
    (∃ t : Table,
        ((stats w env b).drop 3).head? = some (Event.render t)
        ∧ (tables (stats w env b)).head? = some t
        ∧ t.rows =
            [ ["Node ID", getNodeID w env],
              ["Node Addr", getNodeAddr w env],
              ["RTMP Port", w.rtmpPort],
              ["HTTP Port", w.httpPort],
              ["Controller Address", env.hex (addrMap.index "Controller")],
              ["LivepeerToken Address", env.hex (addrMap.index "LivepeerToken")],
              ["LivepeerTokenFaucet Address", env.hex (addrMap.index "LivepeerTokenFaucet")],
              ["ETH Account", getEthAddr w env],
              ["LPT Balance", getTokenBalance w env],
              ["ETH Balance", getEthBalance w env] ]
        ∧ t.rows.length = 10
        ∧ t.rows.map (fun r => r.head?) =
            [ some "Node ID", some "Node Addr", some "RTMP Port", some "HTTP Port",
              some "Controller Address", some "LivepeerToken Address",
              some "LivepeerTokenFaucet Address", some "ETH Account", some "LPT Balance",
              some "ETH Balance" ])
    ∧ (∀ (other : AddrMap) (env2 : Env),
        getContractAddresses w env2 = .ok other →
        env2.httpGet = env.httpGet → env2.hex = env.hex →
        other "Controller" = addrMap "Controller" →
        other "LivepeerToken" = addrMap "LivepeerToken" →
        other "LivepeerTokenFaucet" = addrMap "LivepeerTokenFaucet" →
        (tables (stats w env2 b)).head?.map (fun t => t.rows)
          = (tables (stats w env b)).head?.map (fun t => t.rows)) := by
  constructor
  · refine ⟨mkTable (nodeData w env addrMap), ?_, ?_, ?_, ?_, ?_⟩
    · rw [stats_of_addresses w env addrMap b h]
      simp
    · rw [stats_of_addresses w env addrMap b h]
      simp [tables]
    · simp [mkTable, nodeData]
    · simp [mkTable, nodeData]
    · simp [mkTable, nodeData]
  · intro other env2 h2 hget hhex h1 h2k h3
    rw [stats_of_addresses w env addrMap b h, stats_of_addresses w env2 other b h2]
    simp [tables, mkTable, nodeData, AddrMap.index, getNodeID, getNodeAddr, getEthAddr,
      getTokenBalance, getEthBalance, hget, hhex, h1, h2k, h3]

/-- Witness for C4: the end-to-end scenario.  With `/nodeID` answering
`abc123`, the three contracts at `0x1111...`, `0x2222...`, `0x3333...` and an
empty `/ethAddr`, the rows of the rendered table show Node ID `abc123`,
Controller Address `0x1111...` and ETH Account `Unknown`. -/
theorem node_table_rows_witness :
    getContractAddresses sampleWizard scenarioEnv = .ok sampleAddrMap
    ∧ ∃ t : Table,
        ((stats sampleWizard scenarioEnv false).drop 3).head? = some (Event.render t)
        ∧ (tables (stats sampleWizard scenarioEnv false)).head? = some t
        ∧ t.rows =
            [ ["Node ID", "abc123"],
              ["Node Addr", "/ip4/127.0.0.1/tcp/15000"],
              ["RTMP Port", "1935"],
              ["HTTP Port", "8935"],
              ["Controller Address", "0x1111111111111111111111111111111111111111"],
              ["LivepeerToken Address", "0x2222222222222222222222222222222222222222"],
              ["LivepeerTokenFaucet Address", "0x3333333333333333333333333333333333333333"],
              ["ETH Account", "Unknown"],
              ["LPT Balance", "100"],
              ["ETH Balance", "2"] ]
        ∧ t.rows.length = 10 := by
  obtain ⟨t, h1, h2, h3, h4, -⟩ :=
    (node_table_rows sampleWizard scenarioEnv sampleAddrMap false rfl).1
  exact ⟨rfl, t, h1, h2, h3.trans (by decide), h4⟩

/-- C5: each of `getEthAddr`, `getTokenBalance`, `getEthBalance` and
`getDeposit` returns `Unknown` when the text fetched from its endpoint is
empty and that text itself otherwise, so never the empty string; and the four
are independent: replacing the text served at one of the four endpoints by
any `s` changes that getter's result to the substitution for `s` and leaves
the other three results as they were. -/
theorem scalar_getters_unknown_iff_empty (w : wizard) (env : Env) :
    (getEthAddr w env = (if env.httpGet (nodeUrl w "/ethAddr") = "" then "Unknown"
        else env.httpGet (nodeUrl w "/ethAddr"))
      ∧ getTokenBalance w env = (if env.httpGet (nodeUrl w "/tokenBalance") = "" then "Unknown"
        else env.httpGet (nodeUrl w "/tokenBalance"))
      ∧ getEthBalance w env = (if env.httpGet (nodeUrl w "/ethBalance") = "" then "Unknown"
        else env.httpGet (nodeUrl w "/ethBalance"))
      ∧ getDeposit w env = (if env.httpGet (nodeUrl w "/broadcasterDeposit") = "" then "Unknown"
        else env.httpGet (nodeUrl w "/broadcasterDeposit")))
    ∧ (getEthAddr w env ≠ "" ∧ getTokenBalance w env ≠ "" ∧ getEthBalance w env ≠ ""
      ∧ getDeposit w env ≠ "")
    ∧ (∀ s : String,
        (getEthAddr w (env.withText (nodeUrl w "/ethAddr") s) = (if s = "" then "Unknown" else s)
          ∧ getTokenBalance w (env.withText (nodeUrl w "/ethAddr") s) = getTokenBalance w env
          ∧ getEthBalance w (env.withText (nodeUrl w "/ethAddr") s) = getEthBalance w env
          ∧ getDeposit w (env.withText (nodeUrl w "/ethAddr") s) = getDeposit w env)
        ∧ (getTokenBalance w (env.withText (nodeUrl w "/tokenBalance") s)
              = (if s = "" then "Unknown" else s)
          ∧ getEthAddr w (env.withText (nodeUrl w "/tokenBalance") s) = getEthAddr w env
          ∧ getEthBalance w (env.withText (nodeUrl w "/tokenBalance") s) = getEthBalance w env
          ∧ getDeposit w (env.withText (nodeUrl w "/tokenBalance") s) = getDeposit w env)
        ∧ (getEthBalance w (env.withText (nodeUrl w "/ethBalance") s)
              = (if s = "" then "Unknown" else s)
          ∧ getEthAddr w (env.withText (nodeUrl w "/ethBalance") s) = getEthAddr w env
          ∧ getTokenBalance w (env.withText (nodeUrl w "/ethBalance") s) = getTokenBalance w env
          ∧ getDeposit w (env.withText (nodeUrl w "/ethBalance") s) = getDeposit w env)
        ∧ (getDeposit w (env.withText (nodeUrl w "/broadcasterDeposit") s)
              = (if s = "" then "Unknown" else s)
          ∧ getEthAddr w (env.withText (nodeUrl w "/broadcasterDeposit") s) = getEthAddr w env
          ∧ getTokenBalance w (env.withText (nodeUrl w "/broadcasterDeposit") s)
              = getTokenBalance w env
          ∧ getEthBalance w (env.withText (nodeUrl w "/broadcasterDeposit") s)
              = getEthBalance w env)) := by
  have n12 : nodeUrl w "/ethAddr" ≠ nodeUrl w "/tokenBalance" := nodeUrl_ne w _ _ (by decide)
  have n13 : nodeUrl w "/ethAddr" ≠ nodeUrl w "/ethBalance" := nodeUrl_ne w _ _ (by decide)
  have n14 : nodeUrl w "/ethAddr" ≠ nodeUrl w "/broadcasterDeposit" :=
    nodeUrl_ne w _ _ (by decide)
  have n23 : nodeUrl w "/tokenBalance" ≠ nodeUrl w "/ethBalance" := nodeUrl_ne w _ _ (by decide)
  have n24 : nodeUrl w "/tokenBalance" ≠ nodeUrl w "/broadcasterDeposit" :=
    nodeUrl_ne w _ _ (by decide)
  have n34 : nodeUrl w "/ethBalance" ≠ nodeUrl w "/broadcasterDeposit" :=
    nodeUrl_ne w _ _ (by decide)
  have nonempty : ∀ x : String, (if x = "" then "Unknown" else x) ≠ "" := by
    intro x
    split
    · decide
    · assumption
  refine ⟨⟨rfl, rfl, rfl, rfl⟩, ⟨nonempty _, nonempty _, nonempty _, nonempty _⟩, ?_⟩
  intro s
  simp [getEthAddr, getTokenBalance, getEthBalance, getDeposit, Env.withText,
    n12, n13, n14, n23, n24, n34, n12.symm, n13.symm, n14.symm, n23.symm, n24.symm, n34.symm]

/-- C6 at the failing input: on a node whose `/nodeID` and `/nodeAddrs`
answer with an empty body the contract addresses are fetched, and the first
two rows of the NODE STATS table show the empty string, while the ETH Account
row of the same table shows `Unknown`. -/
theorem node_id_row_shows_empty_text :
    getContractAddresses sampleWizard emptyTextEnv = .ok sampleAddrMap
    ∧ emptyTextEnv.httpGet (nodeUrl sampleWizard "/nodeID") = ""
    ∧ emptyTextEnv.httpGet (nodeUrl sampleWizard "/nodeAddrs") = ""
    ∧ (tables (stats sampleWizard emptyTextEnv false)).head?.map (fun t => t.rows.take 2)
        = some [["Node ID", ""], ["Node Addr", ""]]
    ∧ (tables (stats sampleWizard emptyTextEnv false)).head?.map (fun t => (t.rows.drop 7).take 1)
        = some [["ETH Account", "Unknown"]] := by
  refine ⟨rfl, rfl, rfl, by decide, by decide⟩

/-- Counterexample for C7: with no node listening, `getBroadcastConfig` fails
and the price row of the broadcaster table shows `<nil>`; no row of the table
shows the price as `0`. -/
theorem failed_config_price_is_not_zero :
    (getBroadcastConfig sampleWizard downEnv).2 =
        [Event.logError "Error getting broadcast config: connection refused"]
    ∧ tables (broadcastStats sampleWizard downEnv) =
        [mkTable [ ["Deposit", "Unknown"],
                   ["Broadcast Price Per Segment", "<nil>"],
                   ["Broadcast Transcoding Options", ""] ]]
    ∧ (tables (broadcastStats sampleWizard downEnv)).map (fun t => t.rows) =
        [ [ ["Deposit", "Unknown"],
            ["Broadcast Price Per Segment", "<nil>"],
            ["Broadcast Transcoding Options", ""] ] ]
    ∧ ∀ t ∈ tables (broadcastStats sampleWizard downEnv),
        ["Broadcast Price Per Segment", "0"] ∉ t.rows := by
  refine ⟨rfl, by decide, by decide, by decide⟩

/-- C7 (amended): when the `/getBroadcastConfig` fetch fails (transport
error, unreadable body, or a body that does not decode), `getBroadcastConfig`
returns a nil price and the empty options text, so the Broadcast Price Per
Segment row shows `<nil>`, the rendering of a nil big integer, and the
Broadcast Transcoding Options row shows the empty string. -/
theorem failed_config_rows (w : wizard) (env : Env)
    (hfail : (∃ err, env.get (nodeUrl w "/getBroadcastConfig") = .error err)
      ∨ (∃ resp err, env.get (nodeUrl w "/getBroadcastConfig") = .ok resp
          ∧ resp.Body = .error err)
      ∨ (∃ resp result err, env.get (nodeUrl w "/getBroadcastConfig") = .ok resp
          ∧ resp.Body = .ok result ∧ env.unmarshalConfig result = .error err)) :
    (getBroadcastConfig w env).1 = (none, "")
    ∧ tables (broadcastStats w env) =
        [mkTable [ ["Deposit", getDeposit w env],
                   ["Broadcast Price Per Segment", "<nil>"],
                   ["Broadcast Transcoding Options", ""] ]]
    ∧ (tables (broadcastStats w env)).map (fun t => t.rows) =
        [ [ ["Deposit", getDeposit w env],
            ["Broadcast Price Per Segment", "<nil>"],
            ["Broadcast Transcoding Options", ""] ] ] := by
  have hcfg : (getBroadcastConfig w env).1 = (none, "")
      ∧ ∃ msg, (getBroadcastConfig w env).2 = [Event.logError msg] := by
    unfold getBroadcastConfig
    rcases hfail with ⟨err, he⟩ | ⟨resp, err, he, hb⟩ | ⟨resp, result, err, he, hb, hu⟩
    · rw [he]; exact ⟨rfl, _, rfl⟩
    · rw [he]; simp [hb]
    · rw [he]; simp [hb, hu]
  obtain ⟨h1, msg, h2⟩ := hcfg
  refine ⟨h1, ?_, ?_⟩
  · rw [broadcastStats_eq, h1, h2]
    simp [tables, broadcastData, bigString]
  · rw [broadcastStats_eq, h1, h2]
    simp [tables, broadcastData, bigString, mkTable]

/-- Witness for C7 (amended): a node that answers `/getBroadcastConfig` with
an empty body, which does not decode. -/
theorem failed_config_rows_witness :
    (getBroadcastConfig sampleWizard emptyServerErrorEnv).1 = (none, "")
    ∧ tables (broadcastStats sampleWizard emptyServerErrorEnv) =
        [mkTable [ ["Deposit", getDeposit sampleWizard emptyServerErrorEnv],
                   ["Broadcast Price Per Segment", "<nil>"],
                   ["Broadcast Transcoding Options", ""] ]]
    ∧ (tables (broadcastStats sampleWizard emptyServerErrorEnv)).map (fun t => t.rows) =
        [ [ ["Deposit", getDeposit sampleWizard emptyServerErrorEnv],
            ["Broadcast Price Per Segment", "<nil>"],
            ["Broadcast Transcoding Options", ""] ] ] :=
  failed_config_rows sampleWizard emptyServerErrorEnv
    (Or.inr (Or.inr ⟨⟨500, .ok ""⟩, "", "unexpected end of JSON input", rfl, rfl, rfl⟩))

/-- Counterexample for C8: a node answers `/getBroadcastConfig` with status
500 and a body that decodes; `broadcastStats` logs no error at all and shows
the decoded price and options. -/
theorem server_error_with_body_logs_nothing :
    (∃ resp, serverErrorEnv.get (nodeUrl sampleWizard "/getBroadcastConfig") = .ok resp
      ∧ resp.StatusCode = 500)
    ∧ errors (broadcastStats sampleWizard serverErrorEnv) = []
    ∧ (errors (broadcastStats sampleWizard serverErrorEnv)).length ≠ 1
    ∧ tables (broadcastStats sampleWizard serverErrorEnv) =
        [mkTable [ ["Deposit", "50"],
                   ["Broadcast Price Per Segment", "5"],
                   ["Broadcast Transcoding Options", "P240p30fps4x3"] ]]
    ∧ (tables (broadcastStats sampleWizard serverErrorEnv)).map (fun t => t.rows) =
        [ [ ["Deposit", "50"],
            ["Broadcast Price Per Segment", "5"],
            ["Broadcast Transcoding Options", "P240p30fps4x3"] ] ] := by
  refine ⟨⟨⟨500, .ok configBody⟩, rfl, rfl⟩, by decide, by decide, by decide, by decide⟩

/-- C8 (amended): whatever `/getBroadcastConfig` answers, status included,
`broadcastStats` does not abort: it prints the BROADCASTER STATS title and
renders exactly the three rows Deposit, Broadcast Price Per Segment,
Broadcast Transcoding Options, in this order; the Deposit row is the fetched
deposit text, or `Unknown` if that is empty, whatever the config request
answers; exactly one error is logged when the transport fails, the body
cannot be read or the body does not decode, and none when the body decodes,
in which case the decoded price and options are shown; the status code is
never consulted, so changing it changes nothing. -/
theorem broadcast_section_ignores_status (w : wizard) (env : Env) :
    (∃ price options, printed (broadcastStats w env) =
        [ Event.println "+-----------------+",
          Event.println "|BROADCASTER STATS|",
          Event.println "+-----------------+",
          Event.render (mkTable
            [ ["Deposit", getDeposit w env],
              ["Broadcast Price Per Segment", price],
              ["Broadcast Transcoding Options", options] ]) ])
    ∧ getDeposit w env = (if env.httpGet (nodeUrl w "/broadcasterDeposit") = "" then "Unknown"
        else env.httpGet (nodeUrl w "/broadcasterDeposit"))
    ∧ (∀ r, getDeposit w (env.withAnswer (nodeUrl w "/getBroadcastConfig") r) = getDeposit w env)
    ∧ (((∃ err, env.get (nodeUrl w "/getBroadcastConfig") = .error err)
        ∨ (∃ resp err, env.get (nodeUrl w "/getBroadcastConfig") = .ok resp
            ∧ resp.Body = .error err)
        ∨ (∃ resp result err, env.get (nodeUrl w "/getBroadcastConfig") = .ok resp
            ∧ resp.Body = .ok result ∧ env.unmarshalConfig result = .error err)) →
        (errors (broadcastStats w env)).length = 1)
    ∧ (∀ resp result config, env.get (nodeUrl w "/getBroadcastConfig") = .ok resp →
        resp.Body = .ok result → env.unmarshalConfig result = .ok config →
        errors (broadcastStats w env) = []
        ∧ tables (broadcastStats w env) =
            [mkTable [ ["Deposit", getDeposit w env],
                       ["Broadcast Price Per Segment", bigString config.MaxPricePerSegment],
                       ["Broadcast Transcoding Options", config.TranscodingOptions] ]]
        ∧ (tables (broadcastStats w env)).map (fun t => t.rows) =
            [ [ ["Deposit", getDeposit w env],
                ["Broadcast Price Per Segment", bigString config.MaxPricePerSegment],
                ["Broadcast Transcoding Options", config.TranscodingOptions] ] ])
    ∧ (∀ code, broadcastStats w (env.withStatus code) = broadcastStats w env)
    ∧ (∃ price options, (tables (broadcastStats w env)).map (fun t => t.rows) =
        [ [ ["Deposit", getDeposit w env],
            ["Broadcast Price Per Segment", price],
            ["Broadcast Transcoding Options", options] ] ])
    ∧ (∀ t ∈ tables (broadcastStats w env), t.rows.length = 3) := by
  refine ⟨?_, rfl, fun _ => rfl, ?_, ?_, ?_, ?_, ?_⟩
  · refine ⟨bigString (getBroadcastConfig w env).1.1, (getBroadcastConfig w env).1.2, ?_⟩
    rw [broadcastStats_eq]
    rcases getBroadcastConfig_cases w env with hc | ⟨e, hc⟩ | ⟨e, hc⟩ | ⟨e, hc⟩ <;>
    rw [hc] <;> simp [printed, broadcastData]
  · intro hfail
    rw [broadcastStats_eq]
    have hcfg : ∃ msg, (getBroadcastConfig w env).2 = [Event.logError msg] := by
      unfold getBroadcastConfig
      rcases hfail with ⟨err, he⟩ | ⟨resp, err, he, hb⟩ | ⟨resp, result, err, he, hb, hu⟩
      · rw [he]; exact ⟨_, rfl⟩
      · rw [he]; simp only [hb]; exact ⟨_, rfl⟩
      · rw [he]; simp only [hb, hu]; exact ⟨_, rfl⟩
    obtain ⟨msg, h2⟩ := hcfg
    rw [h2]
    simp [errors]
  · intro resp result config he hb hu
    have hcfg : getBroadcastConfig w env =
        ((config.MaxPricePerSegment, config.TranscodingOptions), []) := by
      unfold getBroadcastConfig
      rw [he]; simp only [hb, hu]
    rw [broadcastStats_eq, hcfg]
    simp [errors, tables, broadcastData, mkTable]
  · intro code
    have hcfg : getBroadcastConfig w (env.withStatus code) = getBroadcastConfig w env := by
      unfold getBroadcastConfig Env.withStatus
      simp only
      cases env.get (nodeUrl w "/getBroadcastConfig") <;> rfl
    rw [broadcastStats_eq, broadcastStats_eq, hcfg]
    rfl
  · refine ⟨bigString (getBroadcastConfig w env).1.1, (getBroadcastConfig w env).1.2, ?_⟩
    rw [broadcastStats_eq]
    rcases getBroadcastConfig_cases w env with hc | ⟨e, hc⟩ | ⟨e, hc⟩ | ⟨e, hc⟩ <;>
    rw [hc] <;> simp [tables, broadcastData, mkTable]
  · rw [broadcastStats_eq]
    rcases getBroadcastConfig_cases w env with hc | ⟨e, hc⟩ | ⟨e, hc⟩ | ⟨e, hc⟩ <;>
    rw [hc] <;> simp [tables, broadcastData, mkTable]

/-- Witness for C8 (amended): status 500 with an empty body logs exactly one
error, status 500 with a body that decodes logs none. -/
theorem broadcast_section_ignores_status_witness :
    (errors (broadcastStats sampleWizard emptyServerErrorEnv)).length = 1
    ∧ (errors (broadcastStats sampleWizard serverErrorEnv) = []
      ∧ tables (broadcastStats sampleWizard serverErrorEnv) =
          [mkTable [ ["Deposit", getDeposit sampleWizard serverErrorEnv],
                     ["Broadcast Price Per Segment", bigString sampleConfig.MaxPricePerSegment],
                     ["Broadcast Transcoding Options", sampleConfig.TranscodingOptions] ]]
      ∧ (tables (broadcastStats sampleWizard serverErrorEnv)).map (fun t => t.rows) =
          [ [ ["Deposit", getDeposit sampleWizard serverErrorEnv],
              ["Broadcast Price Per Segment", bigString sampleConfig.MaxPricePerSegment],
              ["Broadcast Transcoding Options", sampleConfig.TranscodingOptions] ] ]) :=
  ⟨(broadcast_section_ignores_status sampleWizard emptyServerErrorEnv).2.2.2.1
      (Or.inr (Or.inr ⟨⟨500, .ok ""⟩, "", "unexpected end of JSON input", rfl, rfl, rfl⟩)),
   (broadcast_section_ignores_status sampleWizard serverErrorEnv).2.2.2.2.1
      ⟨500, .ok configBody⟩ configBody sampleConfig rfl rfl rfl⟩

/-- C9: the transcoder and delegator sections are all-or-nothing.

For `/transcoderInfo`: when the transport fails, the body cannot be read or
the body does not decode, `getTranscoderInfo` returns that error and
`transcoderStats` prints nothing, renders no table and logs exactly one
error; when the request is answered with a body that decodes,
`getTranscoderInfo` returns the decoded value and `transcoderStats` logs
nothing, prints its title and renders one table whose rows are exactly the
ten rows from Status to Last Reward Round, in this order; so something is
printed if and only if the fetch succeeds, which is exactly when all three
stages succeed, and every table that is ever rendered has ten rows.

For `/delegatorInfo`: `delegatorStats` does the same with its ten rows from
Status to Withdraw Round.

What `delegatorStats` does is unchanged by any change of the answer to
`/transcoderInfo` or of its decoding. -/
theorem transcoder_delegator_all_or_nothing (w : wizard) (env : Env) :
    (∀ err,
        (env.get (nodeUrl w "/transcoderInfo") = .error err
          ∨ (∃ resp, env.get (nodeUrl w "/transcoderInfo") = .ok resp
              ∧ resp.Body = .error err)
          ∨ (∃ resp result, env.get (nodeUrl w "/transcoderInfo") = .ok resp
              ∧ resp.Body = .ok result ∧ env.unmarshalTranscoder result = .error err)) →
        getTranscoderInfo w env = .error err
        ∧ transcoderStats w env = [Event.logError ("Error getting transcoder info: " ++ err)]
        ∧ printed (transcoderStats w env) = []
        ∧ tables (transcoderStats w env) = []
        ∧ errors (transcoderStats w env) = ["Error getting transcoder info: " ++ err])
    ∧ (∀ resp result t,
        env.get (nodeUrl w "/transcoderInfo") = .ok resp → resp.Body = .ok result →
        env.unmarshalTranscoder result = .ok t →
        getTranscoderInfo w env = .ok t
        ∧ errors (transcoderStats w env) = []
        ∧ ∃ table : Table,
            transcoderStats w env =
              [ Event.println "+----------------+",
                Event.println "|TRANSCODER STATS|",
                Event.println "+----------------+",
                Event.render table ]
            ∧ table.rows =
              [ ["Status", t.Status],
                ["Active", FormatBool t.Active],
                ["Delegated Stake", env.formatUnits t.DelegatedStake "LPT"],
                ["Reward Cut (%)", env.formatPerc t.BlockRewardCut],
                ["Fee Share (%)", env.formatPerc t.FeeShare],
                ["Price Per Segment", env.formatUnits t.PricePerSegment "ETH"],
                ["Pending Reward Cut (%)", env.formatPerc t.PendingBlockRewardCut],
                ["Pending Fee Share (%)", env.formatPerc t.PendingFeeShare],
                ["Pending Price Per Segment", env.formatUnits t.PendingPricePerSegment "ETH"],
                ["Last Reward Round", bigString t.LastRewardRound] ]
            ∧ table.rows.length = 10)
    ∧ (printed (transcoderStats w env) ≠ [] ↔ ∃ t, getTranscoderInfo w env = .ok t)
    ∧ ((∃ t, getTranscoderInfo w env = .ok t) ↔
        ∃ resp result t, env.get (nodeUrl w "/transcoderInfo") = .ok resp
          ∧ resp.Body = .ok result ∧ env.unmarshalTranscoder result = .ok t)
    ∧ (∀ table ∈ tables (transcoderStats w env), table.rows.length = 10)
    ∧ (∀ err,
        (env.get (nodeUrl w "/delegatorInfo") = .error err
          ∨ (∃ resp, env.get (nodeUrl w "/delegatorInfo") = .ok resp
              ∧ resp.Body = .error err)
          ∨ (∃ resp result, env.get (nodeUrl w "/delegatorInfo") = .ok resp
              ∧ resp.Body = .ok result ∧ env.unmarshalDelegator result = .error err)) →
        getDelegatorInfo w env = .error err
        ∧ delegatorStats w env = [Event.logError ("Error getting delegator info: " ++ err)]
        ∧ printed (delegatorStats w env) = []
        ∧ tables (delegatorStats w env) = []
        ∧ errors (delegatorStats w env) = ["Error getting delegator info: " ++ err])
    ∧ (∀ resp result d,
        env.get (nodeUrl w "/delegatorInfo") = .ok resp → resp.Body = .ok result →
        env.unmarshalDelegator result = .ok d →
        getDelegatorInfo w env = .ok d
        ∧ errors (delegatorStats w env) = []
        ∧ ∃ table : Table,
            delegatorStats w env =
              [ Event.println "+---------------+",
                Event.println "|DELEGATOR STATS|",
                Event.println "+---------------+",
                Event.render table ]
            ∧ table.rows =
              [ ["Status", d.Status],
                ["Stake", bigString d.BondedAmount],
                ["Collected Fees", bigString d.Fees],
                ["Pending Stake", bigString d.PendingStake],
                ["Pending Fees", bigString d.PendingFees],
                ["Delegated Stake", bigString d.DelegatedAmount],
                ["Delegate Address", env.hex d.DelegateAddress],
                ["Last Claim Round", bigString d.LastClaimTokenPoolsSharesRound],
                ["Start Round", bigString d.StartRound],
                ["Withdraw Round", bigString d.WithdrawRound] ]
            ∧ table.rows.length = 10)
    ∧ (printed (delegatorStats w env) ≠ [] ↔ ∃ d, getDelegatorInfo w env = .ok d)
    ∧ ((∃ d, getDelegatorInfo w env = .ok d) ↔
        ∃ resp result d, env.get (nodeUrl w "/delegatorInfo") = .ok resp
          ∧ resp.Body = .ok result ∧ env.unmarshalDelegator result = .ok d)
    ∧ (∀ table ∈ tables (delegatorStats w env), table.rows.length = 10)
    ∧ (∀ r decode,
        delegatorStats w
            { env.withAnswer (nodeUrl w "/transcoderInfo") r with unmarshalTranscoder := decode }
          = delegatorStats w env) := by
  refine ⟨?_, ?_, ?_, ?_, ?_, ?_, ?_, ?_, ?_, ?_, ?_⟩
  · intro err hfail
    have hg : getTranscoderInfo w env = .error err := by
      unfold getTranscoderInfo
      rcases hfail with he | ⟨resp, he, hb⟩ | ⟨resp, result, he, hb, hu⟩
      · rw [he]
      · rw [he]; simp only [hb]
      · rw [he]; simp only [hb, hu]
    refine ⟨hg, ?_⟩
    simp [transcoderStats, hg, printed, tables, errors]
  · intro resp result t he hb hu
    have hg : getTranscoderInfo w env = .ok t := by
      unfold getTranscoderInfo
      rw [he]; simp only [hb, hu]
    refine ⟨hg, ?_, mkTable (transcoderData env t), ?_, ?_, ?_⟩
    · simp [transcoderStats, hg, errors]
    · simp [transcoderStats, hg]
    · simp [mkTable, transcoderData]
    · simp [mkTable, transcoderData]
  · rcases transcoderStats_cases w env with ⟨e, hi, hs⟩ | ⟨t, hi, hs⟩
    · rw [hs, hi]; simp [printed]
    · rw [hs, hi]; simp [printed]
  · unfold getTranscoderInfo
    constructor
    · rintro ⟨t, h⟩
      split at h
      · cases h
      · next resp he =>
        split at h
        · cases h
        · next result hb =>
          split at h
          · cases h
          · next t2 hu => exact ⟨resp, result, t2, he, hb, hu⟩
    · rintro ⟨resp, result, t, he, hb, hu⟩
      exact ⟨t, by rw [he]; simp only [hb, hu]⟩
  · rcases transcoderStats_cases w env with ⟨e, -, hs⟩ | ⟨t, -, hs⟩
    · rw [hs]; simp [tables]
    · rw [hs]; simp [tables, mkTable, transcoderData]
  · intro err hfail
    have hg : getDelegatorInfo w env = .error err := by
      unfold getDelegatorInfo
      rcases hfail with he | ⟨resp, he, hb⟩ | ⟨resp, result, he, hb, hu⟩
      · rw [he]
      · rw [he]; simp only [hb]
      · rw [he]; simp only [hb, hu]
    refine ⟨hg, ?_⟩
    simp [delegatorStats, hg, printed, tables, errors]
  · intro resp result d he hb hu
    have hg : getDelegatorInfo w env = .ok d := by
      unfold getDelegatorInfo
      rw [he]; simp only [hb, hu]
    refine ⟨hg, ?_, mkTable (delegatorData env d), ?_, ?_, ?_⟩
    · simp [delegatorStats, hg, errors]
    · simp [delegatorStats, hg]
    · simp [mkTable, delegatorData]
    · simp [mkTable, delegatorData]
  · rcases delegatorStats_cases w env with ⟨e, hi, hs⟩ | ⟨d, hi, hs⟩
    · rw [hs, hi]; simp [printed]
    · rw [hs, hi]; simp [printed]
  · unfold getDelegatorInfo
    constructor
    · rintro ⟨d, h⟩
      split at h
      · cases h
      · next resp he =>
        split at h
        · cases h
        · next result hb =>
          split at h
          · cases h
          · next d2 hu => exact ⟨resp, result, d2, he, hb, hu⟩
    · rintro ⟨resp, result, d, he, hb, hu⟩
      exact ⟨d, by rw [he]; simp only [hb, hu]⟩
  · rcases delegatorStats_cases w env with ⟨e, -, hs⟩ | ⟨d, -, hs⟩
    · rw [hs]; simp [tables]
    · rw [hs]; simp [tables, mkTable, delegatorData]
  · intro r decode
    have hne : nodeUrl w "/delegatorInfo" ≠ nodeUrl w "/transcoderInfo" :=
      nodeUrl_ne w _ _ (by decide)
    have hinfo : getDelegatorInfo w
        { env.withAnswer (nodeUrl w "/transcoderInfo") r with unmarshalTranscoder := decode }
          = getDelegatorInfo w env := by
      simp [getDelegatorInfo, Env.withAnswer, hne]
    unfold delegatorStats
    rw [hinfo]
    rfl

/-- Witness for C9: on the scenario node both sections render a table whose
rows are the ten expected ones; with `/transcoderInfo` unreachable the
transcoder section prints nothing and logs one error; and a `/delegatorInfo`
body that does not decode gives no delegator output and one error. -/
theorem transcoder_delegator_all_or_nothing_witness :
    (tables (transcoderStats sampleWizard scenarioEnv)).map (fun t => t.rows) =
        [ [ ["Status", "Registered"],
            ["Active", "true"],
            ["Delegated Stake", "1000 LPT"],
            ["Reward Cut (%)", "10"],
            ["Fee Share (%)", "5"],
            ["Price Per Segment", "1 ETH"],
            ["Pending Reward Cut (%)", "10"],
            ["Pending Fee Share (%)", "5"],
            ["Pending Price Per Segment", "1 ETH"],
            ["Last Reward Round", "6"] ] ]
    ∧ (tables (delegatorStats sampleWizard scenarioEnv)).map (fun t => t.rows) =
        [ [ ["Status", "Bonded"],
            ["Stake", "1000"],
            ["Collected Fees", "0"],
            ["Pending Stake", "1000"],
            ["Pending Fees", "0"],
            ["Delegated Stake", "1000"],
            ["Delegate Address", "0x4444444444444444444444444444444444444444"],
            ["Last Claim Round", "6"],
            ["Start Round", "3"],
            ["Withdraw Round", "0"] ] ]
    ∧ (getTranscoderInfo sampleWizard
          (scenarioEnv.withAnswer "http://localhost:8935/transcoderInfo"
            (.error "connection refused")) = .error "connection refused"
      ∧ transcoderStats sampleWizard
          (scenarioEnv.withAnswer "http://localhost:8935/transcoderInfo"
            (.error "connection refused"))
          = [Event.logError ("Error getting transcoder info: " ++ "connection refused")]
      ∧ printed (transcoderStats sampleWizard
          (scenarioEnv.withAnswer "http://localhost:8935/transcoderInfo"
            (.error "connection refused"))) = []
      ∧ tables (transcoderStats sampleWizard
          (scenarioEnv.withAnswer "http://localhost:8935/transcoderInfo"
            (.error "connection refused"))) = []
      ∧ errors (transcoderStats sampleWizard
          (scenarioEnv.withAnswer "http://localhost:8935/transcoderInfo"
            (.error "connection refused")))
          = ["Error getting transcoder info: " ++ "connection refused"])
    ∧ (getDelegatorInfo sampleWizard
          (scenarioEnv.withAnswer "http://localhost:8935/delegatorInfo"
            (.ok ⟨200, .ok "\x7b"⟩)) = .error "unexpected end of JSON input"
      ∧ delegatorStats sampleWizard
          (scenarioEnv.withAnswer "http://localhost:8935/delegatorInfo"
            (.ok ⟨200, .ok "\x7b"⟩))
          = [Event.logError ("Error getting delegator info: " ++ "unexpected end of JSON input")]
      ∧ printed (delegatorStats sampleWizard
          (scenarioEnv.withAnswer "http://localhost:8935/delegatorInfo"
            (.ok ⟨200, .ok "\x7b"⟩))) = []
      ∧ tables (delegatorStats sampleWizard
          (scenarioEnv.withAnswer "http://localhost:8935/delegatorInfo"
            (.ok ⟨200, .ok "\x7b"⟩))) = []
      ∧ errors (delegatorStats sampleWizard
          (scenarioEnv.withAnswer "http://localhost:8935/delegatorInfo"
            (.ok ⟨200, .ok "\x7b"⟩)))
          = ["Error getting delegator info: " ++ "unexpected end of JSON input"]) := by
  refine ⟨?_, ?_, ?_, ?_⟩
  · obtain ⟨-, -, table, hs, hrows, -⟩ :=
      (transcoder_delegator_all_or_nothing sampleWizard scenarioEnv).2.1
        ⟨200, .ok transcoderBody⟩ transcoderBody sampleTranscoder rfl rfl rfl
    rw [hs]
    simp only [tables, List.filterMap_cons, List.filterMap_nil, List.map_cons, List.map_nil]
    rw [hrows]
    decide
  · obtain ⟨-, -, table, hs, hrows, -⟩ :=
      (transcoder_delegator_all_or_nothing sampleWizard scenarioEnv).2.2.2.2.2.2.1
        ⟨200, .ok delegatorBody⟩ delegatorBody sampleDelegator rfl rfl rfl
    rw [hs]
    simp only [tables, List.filterMap_cons, List.filterMap_nil, List.map_cons, List.map_nil]
    rw [hrows]
    decide
  · exact (transcoder_delegator_all_or_nothing sampleWizard
      (scenarioEnv.withAnswer "http://localhost:8935/transcoderInfo"
        (.error "connection refused"))).1 "connection refused" (Or.inl rfl)
  · exact (transcoder_delegator_all_or_nothing sampleWizard
      (scenarioEnv.withAnswer "http://localhost:8935/delegatorInfo"
        (.ok ⟨200, .ok "\x7b"⟩))).2.2.2.2.2.1 "unexpected end of JSON input"
      (Or.inr (Or.inr ⟨⟨200, .ok "\x7b"⟩, "\x7b", rfl, rfl, rfl⟩))

/-- C10 at the failing input: on the scenario node the three lines printed
before the NODE STATS table are a border of 13 characters, the title line of
12 characters and the same border again, so the border is one character
longer than the title line; the borders of the other three titles have the
length of their title lines (19, 18 and 17). -/
theorem node_title_border_too_long :
    (stats sampleWizard scenarioEnv false).take 3 =
        [ Event.println "+-----------+",
          Event.println "|NODE STATS|",
          Event.println "+-----------+" ]
    ∧ "+-----------+".length = 13 ∧ "|NODE STATS|".length = 12
    ∧ (broadcastStats sampleWizard scenarioEnv).take 3 =
        [ Event.println "+-----------------+",
          Event.println "|BROADCASTER STATS|",
          Event.println "+-----------------+" ]
    ∧ "+-----------------+".length = 19 ∧ "|BROADCASTER STATS|".length = 19
    ∧ (transcoderStats sampleWizard scenarioEnv).take 3 =
        [ Event.println "+----------------+",
          Event.println "|TRANSCODER STATS|",
          Event.println "+----------------+" ]
    ∧ "+----------------+".length = 18 ∧ "|TRANSCODER STATS|".length = 18
    ∧ (delegatorStats sampleWizard scenarioEnv).take 3 =
        [ Event.println "+---------------+",
          Event.println "|DELEGATOR STATS|",
          Event.println "+---------------+" ]
    ∧ "+---------------+".length = 17 ∧ "|DELEGATOR STATS|".length = 17 := by
  refine ⟨by decide, by decide, by decide, by decide, by decide, by decide,
    by decide, by decide, by decide, by decide, by decide, by decide⟩

end LivepeerCli
